import Mathlib

set_option maxRecDepth 100000

/-!
Verification development for the secure image ingestion pipeline of the
MontyCloud assessment repository.  The definitions below are a shallow
embedding of `lambda_functions/secure_upload_image.py` and
`lambda_functions/delete_image.py`: every pure computation of the Python
source (input validation, base64 decoding, tag sanitization, SHA-256 based
storage-key derivation, response formatting, and the handler control flow)
is translated into an executable Lean function.  External collaborators
(the PIL image decoder/encoder, the JSON parser, S3 and DynamoDB call
outcomes, `uuid4` and `utcnow`) are modelled as explicit parameters in an
environment record, and the storage side effects are made observable as an
explicit trace of storage operations.
-/

/-- Model of a decoded JSON value, as produced by Python's `json.loads`
and manipulated by the handlers (`body.get(...)` etc.). -/
inductive Jval where
  | null
  | bool (b : Bool)
  | num (n : Int)
  | str (s : String)
  | list (xs : List Jval)
  | dict (fields : List (String × Jval))

/-- `MAX_IMAGE_SIZE = 10 * 1024 * 1024` from the source. -/
def MAX_IMAGE_SIZE : Nat := 10 * 1024 * 1024

/-- `MAX_TITLE_LENGTH = 100` from the source. -/
def MAX_TITLE_LENGTH : Nat := 100

/-- `MAX_DESCRIPTION_LENGTH = 500` from the source. -/
def MAX_DESCRIPTION_LENGTH : Nat := 500

/-- `MAX_TAGS_COUNT = 10` from the source. -/
def MAX_TAGS_COUNT : Nat := 10

/-- The character class of the Python regex `[a-zA-Z0-9_-]` used by
`re.sub(r'[^a-zA-Z0-9_-]', '', ...)`.  `Char.isAlpha`/`Char.isDigit`
cover exactly the ASCII ranges `a-z`, `A-Z`, `0-9`. -/
def isIdChar (c : Char) : Bool :=
  c.isAlpha || c.isDigit || c == '_' || c == '-'

/-- ASCII whitespace stripped by Python's `str.strip()` (space, tab,
newline, carriage return, vertical tab, form feed). -/
def isPyWs (c : Char) : Bool :=
  c == ' ' || c == '\t' || c == '\n' || c == '\r' || c == '\x0b' || c == '\x0c'

/-- Python `s.strip()`: remove leading and trailing whitespace. -/
def stripStr (s : String) : String :=
  String.mk (((s.data.dropWhile isPyWs).reverse.dropWhile isPyWs).reverse)

/-- `re.sub(r'[^a-zA-Z0-9_-]', '', s)`: keep only the allowed identifier
characters. -/
def sanitizeId (s : String) : String :=
  String.mk (s.data.filter isIdChar)

/-- `InputValidator.validate_user_id`.  A non-string or Python-falsy value
fails at `if not user_id or not isinstance(user_id, str)`; the empty string
is the only falsy string.  Otherwise the input is stripped, sanitized to
the identifier charset, and bounds-checked to length 3..50. -/
def validate_user_id (v : Jval) : Except String String :=
  match v with
  | .str s =>
    if s = "" then .error "Invalid user_id format"
    else
      let sanitized := sanitizeId (stripStr s)
      if sanitized.length < 3 || sanitized.length > 50 then
        .error "user_id must be 3-50 characters"
      else .ok sanitized
  | _ => .error "Invalid user_id format"

/-- The base64 alphabet of the regex `[A-Za-z0-9+/]`. -/
def isB64Char (c : Char) : Bool :=
  c.isAlpha || c.isDigit || c == '+' || c == '/'

/-- Core of the regex `^[A-Za-z0-9+/]*={0,2}$`: a (possibly empty) run of
alphabet characters followed by at most two `=` characters. -/
def b64Core (l : List Char) : Bool :=
  let xs := l.takeWhile isB64Char
  let ys := l.drop xs.length
  decide (ys.length ≤ 2) && ys.all (fun c => c == '=')

/-- Python `re.match(r'^[A-Za-z0-9+/]*={0,2}$', s)`: `$` also matches just
before a single trailing newline. -/
def isB64Match (l : List Char) : Bool :=
  b64Core l ||
    (match l.getLast? with
     | some c => c == '\n' && b64Core l.dropLast
     | none => false)

/-- The standard base64 alphabet, in index order. -/
def b64Alphabet : List Char :=
  "ABCDEFGHIJKLMNOPQRSTUVWXYZabcdefghijklmnopqrstuvwxyz0123456789+/".data

/-- 6-bit value of a base64 character (`=` and foreign characters never
reach the arithmetic on inputs accepted by the format regex). -/
def b64Val (c : Char) : Nat :=
  if c == '=' then 0 else b64Alphabet.indexOf c

/-- The three bytes packed in one base64 quad. -/
def quadBytes (a b c d : Char) : List Nat :=
  let n := b64Val a * 262144 + b64Val b * 4096 + b64Val c * 64 + b64Val d
  [n / 65536 % 256, n / 256 % 256, n % 256]

/-- Decode a base64 character stream quad by quad, with `=` padding
allowed only in the final quad; any other shape is a decode error
(Python `binascii`'s incorrect-padding errors).  Returns `none` on error,
matching the `except Exception` handler around `base64.b64decode`. -/
def b64Quads : List Char → Option (List Nat)
  | [] => some []
  | a :: b :: c :: d :: rest =>
    if c == '=' then
      if d == '=' && rest.isEmpty then some ((quadBytes a b c d).take 1) else none
    else if d == '=' then
      if rest.isEmpty then some ((quadBytes a b c d).take 2) else none
    else
      match b64Quads rest with
      | some tl => some (quadBytes a b c d ++ tl)
      | none => none
  | _ => none

/-- `base64.b64decode` (default `validate=False`): characters outside the
alphabet and `=` are discarded before decoding.  This is called only after
the format regex has accepted the input. -/
def b64decode (l : List Char) : Option (List Nat) :=
  b64Quads (l.filter (fun c => isB64Char c || c == '='))

/-- `InputValidator.validate_image_data`: non-string or empty input fails;
then the base64 format regex, the decode, and the 10 MiB bound on the
decoded byte length are checked in that order. -/
def validate_image_data (v : Jval) : Except String (List Nat) :=
  match v with
  | .str s =>
    if s = "" then .error "Invalid image_data format"
    else if !(isB64Match s.data) then .error "Invalid base64 format"
    else
      match b64decode s.data with
      | none => .error "Invalid base64 data"
      | some decoded =>
        if decoded.length > MAX_IMAGE_SIZE then
          .error "Image too large. Max size: 10485760 bytes"
        else .ok decoded
  | _ => .error "Invalid image_data format"

/-- The characters removed from text fields by
`re.sub(r'[<>"\x27]', '', ...)`: `<`, `>`, double quote, single quote. -/
def isDangerousChar (c : Char) : Bool :=
  c == '<' || c == '>' || c == Char.ofNat 34 || c == Char.ofNat 39

/-- `InputValidator.validate_text_field`: non-string input is coerced to
the empty string without error; otherwise the input is stripped, the
dangerous characters removed, and the length bound enforced. -/
def validate_text_field (v : Jval) (field_name : String) (max_length : Nat) :
    Except String String :=
  match v with
  | .str s =>
    let sanitized := String.mk ((stripStr s).data.filter (fun c => !isDangerousChar c))
    if sanitized.length > max_length then
      .error (field_name ++ " too long. Max length: " ++ toString max_length)
    else .ok sanitized
  | _ => .ok ""

/-- The per-entry loop body of `InputValidator.validate_tags`: non-string
entries are skipped; string entries are stripped and sanitized to the
identifier charset and appended only when the cleaned length is in 1..50. -/
def tagLoop : List Jval → List String
  | [] => []
  | v :: rest =>
    match v with
    | .str s =>
      let clean := sanitizeId (stripStr s)
      if 0 < clean.length && clean.length ≤ 50 then clean :: tagLoop rest
      else tagLoop rest
    | _ => tagLoop rest

/-- `InputValidator.validate_tags`: non-list input yields `[]` without
error; an input list longer than `MAX_TAGS_COUNT` fails before any
per-entry processing; otherwise the per-entry loop runs. -/
def validate_tags (v : Jval) : Except String (List String) :=
  match v with
  | .list xs =>
    if xs.length > MAX_TAGS_COUNT then .error "Too many tags. Max count: 10"
    else .ok (tagLoop xs)
  | _ => .ok []

/-- Truncate to a 32-bit word. -/
def w32 (n : Nat) : Nat := n % 4294967296

/-- 32-bit rotate right (on inputs below `2^32`). -/
def rotr (k x : Nat) : Nat := x / 2 ^ k + x % 2 ^ k * 2 ^ (32 - k)

/-- 32-bit bitwise complement (on inputs below `2^32`). -/
def not32 (x : Nat) : Nat := 4294967295 - x

/-- SHA-256 `Ch(e,f,g)`. -/
def shaCh (e f g : Nat) : Nat := (e &&& f) ^^^ (not32 (w32 e) &&& g)

/-- SHA-256 `Maj(a,b,c)`. -/
def shaMaj (a b c : Nat) : Nat := (a &&& b) ^^^ (a &&& c) ^^^ (b &&& c)

/-- SHA-256 `Σ0`. -/
def bigSigma0 (x : Nat) : Nat := rotr 2 x ^^^ rotr 13 x ^^^ rotr 22 x

/-- SHA-256 `Σ1`. -/
def bigSigma1 (x : Nat) : Nat := rotr 6 x ^^^ rotr 11 x ^^^ rotr 25 x

/-- SHA-256 `σ0`. -/
def smallSigma0 (x : Nat) : Nat := rotr 7 x ^^^ rotr 18 x ^^^ (x / 8)

/-- SHA-256 `σ1`. -/
def smallSigma1 (x : Nat) : Nat := rotr 17 x ^^^ rotr 19 x ^^^ (x / 1024)

/-- The 64 SHA-256 round constants. -/
def shaK : List Nat :=
  [1116352408, 1899447441, 3049323471, 3921009573, 961987163,
   1508970993, 2453635748, 2870763221, 3624381080, 310598401,
   607225278, 1426881987, 1925078388, 2162078206, 2614888103,
   3248222580, 3835390401, 4022224774, 264347078, 604807628,
   770255983, 1249150122, 1555081692, 1996064986, 2554220882,
   2821834349, 2952996808, 3210313671, 3336571891, 3584528711,
   113926993, 338241895, 666307205, 773529912, 1294757372,
   1396182291, 1695183700, 1986661051, 2177026350, 2456956037,
   2730485921, 2820302411, 3259730800, 3345764771, 3516065817,
   3600352804, 4094571909, 275423344, 430227734, 506948616,
   659060556, 883997877, 958139571, 1322822218, 1537002063,
   1747873779, 1955562222, 2024104815, 2227730452, 2361852424,
   2428436474, 2756734187, 3204031479, 3329325298]

/-- The SHA-256 initial hash state. -/
def sha256H0 : List Nat :=
  [1779033703, 3144134277, 1013904242, 2773480762, 1359893119,
   2600822924, 528734635, 1541459225]

/-- SHA-256 padding: append `0x80`, zero bytes to 56 mod 64, then the
original bit length as 8 big-endian bytes. -/
def sha256Pad (msg : List Nat) : List Nat :=
  let L := msg.length
  let z := (120 - (L + 1) % 64) % 64
  let bits := 8 * L
  msg ++ [0x80] ++ List.replicate z 0 ++
    [bits / 2 ^ 56 % 256, bits / 2 ^ 48 % 256, bits / 2 ^ 40 % 256,
     bits / 2 ^ 32 % 256, bits / 2 ^ 24 % 256, bits / 2 ^ 16 % 256,
     bits / 2 ^ 8 % 256, bits % 256]

/-- Split a byte list into 64-byte blocks (structural recursion on a
fuel bound, so that the definition reduces inside the kernel). -/
def chunksOf64Aux : Nat → List Nat → List (List Nat)
  | 0, _ => []
  | _, [] => []
  | fuel + 1, l => l.take 64 :: chunksOf64Aux fuel (l.drop 64)

/-- Split a byte list into 64-byte blocks. -/
def chunksOf64 (l : List Nat) : List (List Nat) :=
  chunksOf64Aux l.length l

/-- Extend the 16-word message schedule by `k` further words. -/
def extendW (w : List Nat) : Nat → List Nat
  | 0 => w
  | k + 1 =>
    let i := w.length
    let next := w32 (smallSigma1 (w.getD (i - 2) 0) + w.getD (i - 7) 0 +
      smallSigma0 (w.getD (i - 15) 0) + w.getD (i - 16) 0)
    extendW (w ++ [next]) k

/-- Read big-endian 32-bit word `i` of a 64-byte block. -/
def blockWord (block : List Nat) (i : Nat) : Nat :=
  block.getD (4 * i) 0 * 2 ^ 24 + block.getD (4 * i + 1) 0 * 2 ^ 16 +
    block.getD (4 * i + 2) 0 * 2 ^ 8 + block.getD (4 * i + 3) 0

/-- One SHA-256 round on the working state. -/
def sha256Round (w : List Nat) (st : Nat × Nat × Nat × Nat × Nat × Nat × Nat × Nat)
    (i : Nat) : Nat × Nat × Nat × Nat × Nat × Nat × Nat × Nat :=
  match st with
  | (a, b, c, d, e, f, g, h) =>
    let t1 := w32 (h + bigSigma1 e + shaCh e f g + shaK.getD i 0 + w.getD i 0)
    let t2 := w32 (bigSigma0 a + shaMaj a b c)
    (w32 (t1 + t2), a, b, c, w32 (d + t1), e, f, g)

/-- SHA-256 compression of one 64-byte block into the 8-word state. -/
def sha256Compress (h : List Nat) (block : List Nat) : List Nat :=
  let w := extendW ((List.range 16).map (blockWord block)) 48
  let init := (h.getD 0 0, h.getD 1 0, h.getD 2 0, h.getD 3 0,
               h.getD 4 0, h.getD 5 0, h.getD 6 0, h.getD 7 0)
  match (List.range 64).foldl (sha256Round w) init with
  | (a, b, c, d, e, f, g, hh) =>
    h.zipWith (fun x y => w32 (x + y)) [a, b, c, d, e, f, g, hh]

/-- The 8-word SHA-256 state of a byte message. -/
def sha256Words (msg : List Nat) : List Nat :=
  (chunksOf64 (sha256Pad msg)).foldl sha256Compress sha256H0

/-- The 16 lowercase hex digits, in value order. -/
def hexDigits : List Char := "0123456789abcdef".data

/-- Lowercase hex digit of `n % 16`. -/
def hexChar (n : Nat) : Char := hexDigits.getD (n % 16) '0'

/-- The 8 hex characters of a 32-bit word, most significant first. -/
def wordHex (x : Nat) : List Char :=
  (List.range 8).map (fun i => hexChar (x / 2 ^ (28 - 4 * i)))

/-- `hashlib.sha256(bytes).hexdigest()` as a character list. -/
def sha256hex (msg : List Nat) : List Char :=
  ((sha256Words msg).map wordHex).flatten

/-- UTF-8 encoding of one character (Python `str.encode()`). -/
def utf8EncodeCharNat (c : Char) : List Nat :=
  let n := c.toNat
  if n < 128 then [n]
  else if n < 2048 then [192 + n / 64, 128 + n % 64]
  else if n < 65536 then [224 + n / 4096, 128 + n / 64 % 64, 128 + n % 64]
  else [240 + n / 262144, 128 + n / 4096 % 64, 128 + n / 64 % 64, 128 + n % 64]

/-- `s.encode()`: UTF-8 bytes of a string. -/
def utf8Bytes (s : String) : List Nat := s.data.flatMap utf8EncodeCharNat

/-- `SecureS3Manager.generate_secure_key`: sanitize both identifiers,
prefix with the first 8 hex characters of the SHA-256 of the raw
`user_id`, and join with the fixed layout ending in `.jpg`. -/
def generate_secure_key (user_id image_id : String) : String :=
  let safe_user_id := sanitizeId user_id
  let safe_image_id := sanitizeId image_id
  let user_hash := String.mk ((sha256hex (utf8Bytes user_id)).take 8)
  "images/" ++ user_hash ++ "/" ++ safe_user_id ++ "/" ++ safe_image_id ++ ".jpg"

/-- What the handler observes about a PIL image object: the container's
declared format (`None` is possible in PIL), the dimensions, and the color
mode. -/
structure ImgInfo where
  format : Option String
  width : Nat
  height : Nat
  mode : String

/-- `ALLOWED_IMAGE_FORMATS = ['JPEG', 'PNG', 'GIF', 'WEBP']`, used via
`image.format not in ALLOWED_IMAGE_FORMATS` (a `None` format is not in
the list). -/
def allowedFormat : Option String → Bool
  | some f => f == "JPEG" || f == "PNG" || f == "GIF" || f == "WEBP"
  | none => false

/-- The three distinct failure exits of `ImageProcessor.process_image`,
one per `raise` site: the format check, the dimension check, and a decode
failure of `Image.open`. -/
inductive ImgErr where
  | unsupportedFormat (fmt : Option String)
  | dimensionTooLarge
  | decodeFail (msg : String)

/-- The `str(e)` text of each failure as produced by the
`except Exception` wrapper, which re-raises every failure (including the
two inner `SecurityError`s) as
`SecurityError(f"Invalid image data: ...")`. -/
def ImgErr.message : ImgErr → String
  | .unsupportedFormat f =>
      "Invalid image data: Unsupported image format: " ++
        (match f with | some s => s | none => "None")
  | .dimensionTooLarge => "Invalid image data: Image dimensions too large"
  | .decodeFail m => "Invalid image data: " ++ m

/-- `if image.mode in ('RGBA', 'LA', 'P'): image = image.convert('RGB')`. -/
def convertMode (img : ImgInfo) : ImgInfo :=
  if img.mode == "RGBA" || img.mode == "LA" || img.mode == "P" then
    { img with mode := "RGB" }
  else img

/-- `ImageProcessor.process_image`, with `Image.open` modelled by the
decoder `dec` and `image.save(..., format='JPEG', quality=85,
optimize=True)` modelled by the encoder `enc`: decode, check the declared
format against the allow-list, check both dimensions against 4096,
convert the color mode, re-encode, and return
`(processed_bytes, width, height, image.format or 'JPEG')`. -/
def process_image (dec : List Nat → Except String ImgInfo)
    (enc : ImgInfo → List Nat) (image_bytes : List Nat) :
    Except ImgErr (List Nat × Nat × Nat × String) :=
  match dec image_bytes with
  | .error m => .error (.decodeFail m)
  | .ok img =>
    if !allowedFormat img.format then .error (.unsupportedFormat img.format)
    else if img.width > 4096 || img.height > 4096 then .error .dimensionTooLarge
    else
      .ok (enc (convertMode img), img.width, img.height,
           (img.format).getD "JPEG")

/-- The metadata record written by `table.put_item(Item=metadata)`. -/
structure ItemRecord where
  image_id : String
  user_id : String
  title : String
  description : String
  tags : List String
  s3_key : String
  width : Nat
  height : Nat
  format : String
  file_size : Nat
  created_at : String
  updated_at : String
  deriving DecidableEq

/-- One observable storage call of a handler run, with its outcome. -/
inductive StorageOp where
  | createTable
  | createBucket
  | putObject (key : String) (body : List Nat) (ok : Bool)
  | putItem (item : ItemRecord) (ok : Bool)
  | getItem (image_id : String)
  | deleteObject (key : String) (ok : Bool)
  | deleteItem (image_id : String) (ok : Bool)
  deriving DecidableEq

/-- A wire response: numeric status, header map, and the JSON value that
`json.dumps` serializes into the body string. -/
structure Response where
  statusCode : Nat
  headers : List (String × String)
  body : Jval

/-- The environment of one invocation: the configured CORS origin
(`os.environ.get('ALLOWED_ORIGIN', ...)`), the JSON parser, the PIL
decoder and JPEG encoder, the generated `uuid4` identifier, the two
`datetime.utcnow().isoformat()` readings, and the outcomes of the S3 and
DynamoDB write calls. -/
structure Env where
  allowedOriginVar : Option String
  jsonParse : String → Option Jval
  decodeImage : List Nat → Except String ImgInfo
  encodeJPEG : ImgInfo → List Nat
  imageId : String
  nowCreated : String
  nowUpdated : String
  blobOk : Bool
  metaOk : Bool

/-- `os.environ.get('ALLOWED_ORIGIN', 'https://yourdomain.com')`. -/
def Env.origin (env : Env) : String :=
  env.allowedOriginVar.getD "https://yourdomain.com"

/-- `SecureResponseFormatter.success_response`. -/
def success_response (env : Env) (data : Jval) (status_code : Nat) : Response :=
  { statusCode := status_code
    headers :=
      [("Content-Type", "application/json"),
       ("Access-Control-Allow-Origin", env.origin),
       ("Access-Control-Allow-Methods", "POST, OPTIONS"),
       ("Access-Control-Allow-Headers", "Content-Type, Authorization"),
       ("X-Content-Type-Options", "nosniff"),
       ("X-Frame-Options", "DENY"),
       ("X-XSS-Protection", "1; mode=block"),
       ("Strict-Transport-Security", "max-age=31536000; includeSubDomains")]
    body := data }

/-- `SecureResponseFormatter.error_response`: the detailed message is only
logged; the client body carries a generic message chosen from the status
code, and the header set omits `Strict-Transport-Security`. -/
def error_response (env : Env) (error_message : String) (status_code : Nat) :
    Response :=
  let generic :=
    if status_code = 400 then "Invalid request"
    else if status_code = 401 then "Unauthorized"
    else if status_code = 403 then "Forbidden"
    else if status_code = 413 then "Request too large"
    else "An error occurred processing your request"
  { statusCode := status_code
    headers :=
      [("Content-Type", "application/json"),
       ("Access-Control-Allow-Origin", env.origin),
       ("X-Content-Type-Options", "nosniff"),
       ("X-Frame-Options", "DENY")]
    body := .dict [("error", .str generic)] }

/-- Python `dict.get(key, default)` on a decoded JSON object. -/
def bodyGet (fields : List (String × Jval)) (k : String) (dflt : Jval) : Jval :=
  match fields.lookup k with
  | some v => v
  | none => dflt

/-- The body of `secure_lambda_handler` after request-size validation,
resource initialization and body parsing: validate the five fields in
source order, process the image, derive the key, write the blob, write
the metadata row, and return the success envelope; each failure exits
with the matching `error_response`.  The returned trace extends `ops`
with the storage calls performed. -/
def handleBody (env : Env) (b : Jval) (ops : List StorageOp) :
    Response × List StorageOp :=
  match b with
  | .dict fields =>
    match validate_user_id (bodyGet fields "user_id" (.str "")) with
    | .error e => (error_response env e 400, ops)
    | .ok user_id =>
    match validate_image_data (bodyGet fields "image_data" (.str "")) with
    | .error e => (error_response env e 400, ops)
    | .ok image_data =>
    match validate_text_field (bodyGet fields "title" (.str "")) "title"
        MAX_TITLE_LENGTH with
    | .error e => (error_response env e 400, ops)
    | .ok title =>
    match validate_text_field (bodyGet fields "description" (.str ""))
        "description" MAX_DESCRIPTION_LENGTH with
    | .error e => (error_response env e 400, ops)
    | .ok description =>
    match validate_tags (bodyGet fields "tags" (.list [])) with
    | .error e => (error_response env e 400, ops)
    | .ok tags =>
    match process_image env.decodeImage env.encodeJPEG image_data with
    | .error e => (error_response env e.message 400, ops)
    | .ok (processed_bytes, width, height, format_type) =>
      let image_id := env.imageId
      let s3_key := generate_secure_key user_id image_id
      let metadata : ItemRecord :=
        { image_id := image_id, user_id := user_id, title := title,
          description := description, tags := tags, s3_key := s3_key,
          width := width, height := height, format := format_type,
          file_size := processed_bytes.length,
          created_at := env.nowCreated, updated_at := env.nowUpdated }
      if env.blobOk then
        let ops := ops ++ [.putObject s3_key processed_bytes true]
        if env.metaOk then
          let ops := ops ++ [.putItem metadata true]
          (success_response env (.dict
            [("message", .str "Image uploaded successfully"),
             ("image_id", .str image_id),
             ("metadata", .dict
               [("image_id", .str image_id),
                ("user_id", .str user_id),
                ("title", .str title),
                ("description", .str description),
                ("tags", .list (tags.map .str)),
                ("width", .num width),
                ("height", .num height),
                ("file_size", .num processed_bytes.length),
                ("created_at", .str env.nowCreated)])]) 201, ops)
        else
          (error_response env "Internal server error" 500,
           ops ++ [.putItem metadata false])
      else
        (error_response env "Internal server error" 500,
         ops ++ [.putObject s3_key processed_bytes false])
  | _ => (error_response env "Invalid request format" 400, ops)

/-- `secure_lambda_handler`, with the incoming `event.get('body')` value
as the request: the request-size guard runs first (its `SecurityError`
is caught by the outer handler as a 400), then the two create-if-absent
initialization calls, then body parsing, then `handleBody`. -/
def secure_lambda_handler (env : Env) (eventBody : Option Jval) :
    Response × List StorageOp :=
  let sizeBad :=
    match eventBody with
    | some (.str s) => decide (s.length > MAX_IMAGE_SIZE * 2)
    | _ => false
  if sizeBad then (error_response env "Request too large" 400, [])
  else
    let ops := [StorageOp.createTable, StorageOp.createBucket]
    match eventBody with
    | some (.str s) =>
      match env.jsonParse s with
      | none => (error_response env "Invalid JSON format" 400, ops)
      | some b => handleBody env b ops
    | some v => handleBody env v ops
    | none => handleBody env (.dict []) ops

/-- A metadata row as read back by the delete handler
(`item = response['Item']; s3_key = item['s3_key']`); only the stored
`s3_key` is consumed. -/
structure DbItem where
  s3_key : String

/-- Environment of one delete invocation: the metadata-store lookup and
the outcomes of the two delete calls. -/
structure DeleteEnv where
  getItem : String → Option DbItem
  s3DeleteOk : Bool
  dbDeleteOk : Bool

/-- Responses of `delete_image.lambda_handler` use a permissive
`Access-Control-Allow-Origin: *` and expose concrete error text. -/
def deleteResponse (status : Nat) (body : Jval) : Response :=
  { statusCode := status
    headers :=
      [("Content-Type", "application/json"),
       ("Access-Control-Allow-Origin", "*")]
    body := body }

/-- `delete_image.lambda_handler`, with
`event.get('pathParameters', {}).get('image_id')` as the request: a
missing or empty (falsy) identifier is a 400; a missing metadata row is
a 404; an S3 delete failure is swallowed (`except` with a warning) and
the DynamoDB delete still runs; a DynamoDB delete failure reaches the
outer handler as a 500 with the exception text. -/
def delete_lambda_handler (env : DeleteEnv) (image_id : Option String) :
    Response × List StorageOp :=
  let ops := [StorageOp.createTable]
  match image_id with
  | none => (deleteResponse 400 (.dict [("error", .str "image_id is required")]), ops)
  | some iid =>
    if iid = "" then
      (deleteResponse 400 (.dict [("error", .str "image_id is required")]), ops)
    else
      let ops := ops ++ [.getItem iid]
      match env.getItem iid with
      | none =>
        (deleteResponse 404 (.dict [("error", .str "Image not found")]), ops)
      | some item =>
        let ops := ops ++ [.deleteObject item.s3_key env.s3DeleteOk]
        if env.dbDeleteOk then
          (deleteResponse 200 (.dict
            [("message", .str "Image deleted successfully"),
             ("image_id", .str iid)]),
           ops ++ [.deleteItem iid true])
        else
          (deleteResponse 500 (.dict
            [("error", .str "Internal server error: delete_item failed")]),
           ops ++ [.deleteItem iid false])

/-- Does a storage operation write a blob (`put_object`)? -/
def isPutObject : StorageOp → Bool
  | .putObject _ _ _ => true
  | _ => false

/-- Does a storage operation write a metadata row (`put_item`)? -/
def isPutItem : StorageOp → Bool
  | .putItem _ _ => true
  | _ => false

/-- A fixed benign environment used to instantiate universally quantified
theorems at concrete inputs: default CORS configuration, no JSON parser
result, a decoder that accepts every payload as a 100 x 100 RGB JPEG, a
one-byte canonical encoding, and successful storage calls. -/
def envOk : Env :=
  { allowedOriginVar := none
    jsonParse := fun _ => none
    decodeImage := fun _ => .ok { format := some "JPEG", width := 100, height := 100, mode := "RGB" }
    encodeJPEG := fun _ => [255]
    imageId := "11111111-2222-3333-4444-555555555555"
    nowCreated := "2026-10-12T00:00:00"
    nowUpdated := "2026-10-12T00:00:00.000001"
    blobOk := true
    metaOk := true }

theorem filter_dropWhile_of_imp (p q : Char → Bool)
    (h : ∀ c, p c = true → q c = false) :
    ∀ l : List Char, (l.dropWhile p).filter q = l.filter q := by
  intro l
  induction l with
  | nil => rfl
  | cons a t ih =>
    by_cases hp : p a = true
    · simp [List.dropWhile_cons, hp, List.filter_cons, h a hp, ih]
    · simp [List.dropWhile_cons, hp]

theorem pyWs_not_idChar : ∀ c, isPyWs c = true → isIdChar c = false := by
  intro c h
  simp only [isPyWs, Bool.or_eq_true, beq_iff_eq] at h
  rcases h with ((((h | h) | h) | h) | h) | h <;> subst h <;> decide

/-- Stripping whitespace first does not change the identifier
sanitization: the claim's direct charset filter and the code's
strip-then-filter agree. -/
theorem sanitizeId_stripStr (s : String) :
    sanitizeId (stripStr s) = sanitizeId s := by
  apply String.ext
  show (((s.data.dropWhile isPyWs).reverse.dropWhile isPyWs).reverse.filter isIdChar)
      = s.data.filter isIdChar
  rw [List.filter_reverse, filter_dropWhile_of_imp isPyWs isIdChar pyWs_not_idChar,
    List.filter_reverse, filter_dropWhile_of_imp isPyWs isIdChar pyWs_not_idChar,
    List.reverse_reverse]

/-- The per-entry decision of tag validation: a string entry is kept in
sanitized form when its cleaned length is 1..50, every other entry is
dropped. -/
def cleanEntry (v : Jval) : Option String :=
  match v with
  | .str s =>
    let clean := sanitizeId (stripStr s)
    if 0 < clean.length && clean.length ≤ 50 then some clean else none
  | _ => none

theorem tagLoop_eq_filterMap (xs : List Jval) :
    tagLoop xs = xs.filterMap cleanEntry := by
  induction xs with
  | nil => rfl
  | cons v rest ih =>
    cases v with
    | str s =>
      simp only [tagLoop, cleanEntry, List.filterMap_cons]
      split <;> simp [ih]
    | null => simp [tagLoop, cleanEntry, List.filterMap_cons, ih]
    | bool b => simp [tagLoop, cleanEntry, List.filterMap_cons, ih]
    | num n => simp [tagLoop, cleanEntry, List.filterMap_cons, ih]
    | list l => simp [tagLoop, cleanEntry, List.filterMap_cons, ih]
    | dict f => simp [tagLoop, cleanEntry, List.filterMap_cons, ih]

theorem mem_tagLoop_shape (t : String) :
    ∀ xs : List Jval, t ∈ tagLoop xs →
      t.data.all isIdChar = true ∧ 1 ≤ t.length ∧ t.length ≤ 50 := by
  intro xs
  induction xs with
  | nil => intro h; cases h
  | cons v rest ih =>
    intro hmem
    cases v with
    | str s =>
      simp only [tagLoop] at hmem
      split at hmem
      · rcases List.mem_cons.mp hmem with heq | htl
        · subst heq
          rename_i hguard
          simp only [Bool.and_eq_true, decide_eq_true_eq] at hguard
          refine ⟨?_, ?_, ?_⟩
          · simp only [sanitizeId, List.all_eq_true]
            intro x hx
            exact (List.mem_filter.mp hx).2
          · exact hguard.1
          · exact hguard.2
        · exact ih htl
      · exact ih hmem
    | null => exact ih hmem
    | bool b => exact ih hmem
    | num n => exact ih hmem
    | list l => exact ih hmem
    | dict f => exact ih hmem

/-- C4: tag validation never rejects on entry content: a non-list value
yields the empty list without error; a list of at most `MAX_TAGS_COUNT`
entries always validates, keeping exactly the entries whose sanitized
form is nonempty and at most 50 characters (in input order, via
`List.filterMap`), and every returned tag consists only of
`[A-Za-z0-9_-]` characters and has length 1..50. -/
theorem validate_tags_never_rejects_entries :
    (∀ v : Jval, (∀ xs, v ≠ Jval.list xs) → validate_tags v = .ok []) ∧
    (∀ xs : List Jval, xs.length ≤ MAX_TAGS_COUNT →
      validate_tags (Jval.list xs) = .ok (xs.filterMap cleanEntry) ∧
      ∀ t ∈ xs.filterMap cleanEntry,
        t.data.all isIdChar = true ∧ 1 ≤ t.length ∧ t.length ≤ 50) := by
  constructor
  · intro v hv
    cases v with
    | list xs => exact absurd rfl (hv xs)
    | null => rfl
    | bool b => rfl
    | num n => rfl
    | str s => rfl
    | dict f => rfl
  · intro xs hlen
    have hnot : ¬ xs.length > MAX_TAGS_COUNT := by omega
    constructor
    · simp [validate_tags, hnot, tagLoop_eq_filterMap]
    · intro t ht
      exact mem_tagLoop_shape t xs (by rwa [tagLoop_eq_filterMap])

/-- Witness for C4 at concrete inputs: a non-list `tags` value validates
to the empty list, and the list `[" Tag-1! ", "!!!", 7]` validates to
`["Tag-1"]` with the required shape. -/
theorem validate_tags_never_rejects_entries_witness :
    validate_tags (Jval.str "notalist") = .ok [] ∧
    validate_tags (Jval.list [.str " Tag-1! ", .str "!!!", .num 7]) =
      .ok ["Tag-1"] ∧
    ∀ t ∈ ["Tag-1"], t.data.all isIdChar = true ∧ 1 ≤ t.length ∧ t.length ≤ 50 := by
  refine ⟨?_, ?_, ?_⟩
  · exact validate_tags_never_rejects_entries.1 (Jval.str "notalist")
      (fun xs h => Jval.noConfusion h)
  · have h := (validate_tags_never_rejects_entries.2
      [.str " Tag-1! ", .str "!!!", .num 7] (by decide)).1
    rw [h]; rfl
  · intro t ht
    have h := (validate_tags_never_rejects_entries.2
      [.str " Tag-1! ", .str "!!!", .num 7] (by decide)).2
    have : ([.str " Tag-1! ", .str "!!!", .num 7] : List Jval).filterMap cleanEntry
        = ["Tag-1"] := by rfl
    rw [← this] at ht
    exact h t ht

/-- Is a JSON value a string? -/
def Jval.isStr : Jval → Bool
  | .str _ => true
  | _ => false

theorem tagLoop_filter_isStr (xs : List Jval) :
    tagLoop (xs.filter Jval.isStr) = tagLoop xs := by
  induction xs with
  | nil => rfl
  | cons v rest ih =>
    cases v with
    | str s => simp only [List.filter_cons, Jval.isStr, tagLoop]; split <;> simp [ih]
    | null => simpa [List.filter_cons, Jval.isStr, tagLoop] using ih
    | bool b => simpa [List.filter_cons, Jval.isStr, tagLoop] using ih
    | num n => simpa [List.filter_cons, Jval.isStr, tagLoop] using ih
    | list l => simpa [List.filter_cons, Jval.isStr, tagLoop] using ih
    | dict f => simpa [List.filter_cons, Jval.isStr, tagLoop] using ih

/-- C10: non-string tag entries are silently dropped (the validated list
is computed from the string entries alone, with no error), yet every
entry, string or not, counts toward the 10-entry input-length limit,
which is checked before any per-entry filtering. -/
theorem validate_tags_nonstring_dropped_but_counted :
    (∀ xs : List Jval, xs.length ≤ MAX_TAGS_COUNT →
       validate_tags (Jval.list xs) = .ok (tagLoop (xs.filter Jval.isStr))) ∧
    (∀ xs : List Jval, xs.length > MAX_TAGS_COUNT →
       validate_tags (Jval.list xs) = .error "Too many tags. Max count: 10") := by
  constructor
  · intro xs hlen
    have hnot : ¬ xs.length > MAX_TAGS_COUNT := by omega
    simp [validate_tags, hnot, tagLoop_filter_isStr]
  · intro xs hlen
    simp [validate_tags, hlen]

/-- Witness for C10 at concrete inputs: `[1, null, "ok"]` validates to
`["ok"]` with the number and null silently dropped, while a list of 11
numbers — none of them a valid tag — is rejected for its raw length. -/
theorem validate_tags_nonstring_dropped_but_counted_witness :
    validate_tags (Jval.list [.num 1, .null, .str "ok"]) = .ok ["ok"] ∧
    validate_tags (Jval.list (List.replicate 11 (Jval.num 7))) =
      .error "Too many tags. Max count: 10" := by
  constructor
  · have h := validate_tags_nonstring_dropped_but_counted.1
      [.num 1, .null, .str "ok"] (by decide)
    rw [h]; rfl
  · exact validate_tags_nonstring_dropped_but_counted.2
      (List.replicate 11 (Jval.num 7)) (by simp [MAX_TAGS_COUNT])

/-- C5: on every decodable payload the transcoder fails with the
unsupported-format error when the declared format is outside
{JPEG, PNG, GIF, WEBP}, fails with the dimension error when (the format
is allowed and) either dimension exceeds 4096, maps undecodable bytes to
the decode failure carrying the decoder's message, and the three failure
kinds are pairwise distinct values. -/
theorem process_image_error_taxonomy (dec : List Nat → Except String ImgInfo)
    (enc : ImgInfo → List Nat) (bytes : List Nat) (img : ImgInfo)
    (hdec : dec bytes = .ok img) :
    (allowedFormat img.format = false →
       process_image dec enc bytes = .error (.unsupportedFormat img.format)) ∧
    (allowedFormat img.format = true → img.width > 4096 ∨ img.height > 4096 →
       process_image dec enc bytes = .error .dimensionTooLarge) ∧
    (∀ bytes2 m, dec bytes2 = .error m →
       process_image dec enc bytes2 = .error (.decodeFail m)) ∧
    (∀ f m, ImgErr.unsupportedFormat f ≠ ImgErr.decodeFail m) ∧
    (∀ m, ImgErr.dimensionTooLarge ≠ ImgErr.decodeFail m) ∧
    (∀ f, ImgErr.unsupportedFormat f ≠ ImgErr.dimensionTooLarge) := by
  refine ⟨?_, ?_, ?_, ?_, ?_, ?_⟩
  · intro hfmt
    simp [process_image, hdec, hfmt]
  · intro hfmt hdim
    have : (img.width > 4096 || img.height > 4096) = true := by
      rcases hdim with h | h <;> simp [h]
    simp [process_image, hdec, hfmt, this]
  · intro bytes2 m hm
    simp [process_image, hm]
  · intro f m h; cases h
  · intro m h; cases h
  · intro f h; cases h

/-- Witness for C5 at concrete inputs: a decoder declaring a BMP
container triggers the unsupported-format failure, one declaring an
oversized PNG triggers the dimension failure, and a failing decoder
triggers the decode failure. -/
theorem process_image_error_taxonomy_witness :
    (fun _ : List Nat =>
      (.ok { format := some "BMP", width := 10, height := 10, mode := "RGB" } :
        Except String ImgInfo)) [0] =
      .ok { format := some "BMP", width := 10, height := 10, mode := "RGB" } ∧
    process_image
      (fun _ => .ok { format := some "BMP", width := 10, height := 10, mode := "RGB" })
      (fun _ => []) [0] = .error (.unsupportedFormat (some "BMP")) := by
  refine ⟨rfl, ?_⟩
  exact (process_image_error_taxonomy
    (fun _ => .ok { format := some "BMP", width := 10, height := 10, mode := "RGB" })
    (fun _ => []) [0] _ rfl).1 (by decide)

theorem sha256Compress_length (h block : List Nat) (hh : h.length = 8) :
    (sha256Compress h block).length = 8 := by
  simp [sha256Compress, List.length_zipWith, hh]

theorem foldl_sha256Compress_length (bs : List (List Nat)) :
    ∀ h : List Nat, h.length = 8 → (bs.foldl sha256Compress h).length = 8 := by
  induction bs with
  | nil => intro h hh; simpa using hh
  | cons b rest ih =>
    intro h hh
    exact ih (sha256Compress h b) (sha256Compress_length h b hh)

theorem sha256Words_length (msg : List Nat) : (sha256Words msg).length = 8 :=
  foldl_sha256Compress_length _ sha256H0 (by rfl)

theorem wordHex_length (x : Nat) : (wordHex x).length = 8 := by
  simp [wordHex]

theorem sha256hex_length (msg : List Nat) : (sha256hex msg).length = 64 := by
  have hsum : ∀ l : List Nat, ((l.map wordHex).map List.length).sum = 8 * l.length := by
    intro l
    induction l with
    | nil => simp
    | cons x t ih =>
      simp only [List.map_cons, List.sum_cons, ih, wordHex_length, List.length_cons]
      ring
  simp only [sha256hex, List.length_flatten]
  rw [hsum, sha256Words_length]

theorem hexChar_mem (n : Nat) : hexChar n ∈ hexDigits := by
  have hlt : n % 16 < 16 := Nat.mod_lt n (by norm_num)
  have : ∀ m, m < 16 → hexDigits.getD m '0' ∈ hexDigits := by decide
  exact this (n % 16) hlt

theorem sha256hex_chars (msg : List Nat) :
    ∀ c ∈ sha256hex msg, c ∈ hexDigits := by
  intro c hc
  simp only [sha256hex, List.mem_flatten, List.mem_map] at hc
  obtain ⟨l, ⟨x, _, hxl⟩, hcl⟩ := hc
  subst hxl
  simp only [wordHex, List.mem_map] at hcl
  obtain ⟨i, _, hi⟩ := hcl
  subst hi
  exact hexChar_mem _

/-- Two consecutive `.` characters somewhere in a character list — the
shape of a `..` path segment. -/
def hasDoubleDot : List Char → Bool
  | [] => false
  | [_] => false
  | a :: b :: rest => (a == '.' && b == '.') || hasDoubleDot (b :: rest)

theorem hasDoubleDot_cons (a : Char) (l : List Char) (ha : a ≠ '.') :
    hasDoubleDot (a :: l) = hasDoubleDot l := by
  cases l with
  | nil => rfl
  | cons b r => simp [hasDoubleDot, ha]

theorem hasDoubleDot_append_of_no_dot (xs ys : List Char)
    (h : ∀ c ∈ xs, c ≠ '.') :
    hasDoubleDot (xs ++ ys) = hasDoubleDot ys := by
  induction xs with
  | nil => rfl
  | cons a t ih =>
    rw [List.cons_append, hasDoubleDot_cons a _ (h a (List.mem_cons_self a t))]
    exact ih (fun c hc => h c (List.mem_cons_of_mem a hc))

theorem hexDigit_ne_dot : ∀ c ∈ hexDigits, c ≠ '.' := by decide

theorem idChar_ne_dot (c : Char) (h : isIdChar c = true) : c ≠ '.' := by
  intro heq
  subst heq
  simp [isIdChar] at h

theorem sanitizeId_chars (s : String) :
    ∀ c ∈ (sanitizeId s).data, isIdChar c = true := by
  intro c hc
  exact (List.mem_filter.mp hc).2

/-- C6: storage-key derivation is the pure function
`generate_secure_key`; for all input strings the key is exactly the
8-hex-character SHA-256 prefix of the raw owner identifier followed by
the sanitized owner and image identifiers under the fixed `images/`
root, ending in `.jpg`; it contains no two consecutive dots (so no `..`
segment) and starts with `i`, not `/`. -/
theorem generate_secure_key_structure (user_id image_id : String) :
    generate_secure_key user_id image_id =
      "images/" ++ String.mk ((sha256hex (utf8Bytes user_id)).take 8) ++ "/" ++
        sanitizeId user_id ++ "/" ++ sanitizeId image_id ++ ".jpg" ∧
    (String.mk ((sha256hex (utf8Bytes user_id)).take 8)).length = 8 ∧
    (∀ c ∈ (sha256hex (utf8Bytes user_id)).take 8, c ∈ hexDigits) ∧
    hasDoubleDot (generate_secure_key user_id image_id).data = false ∧
    (generate_secure_key user_id image_id).data.head? ≠ some '/' := by
  have hhexmem : ∀ c ∈ (sha256hex (utf8Bytes user_id)).take 8, c ∈ hexDigits :=
    fun c hc => sha256hex_chars _ c (List.mem_of_mem_take hc)
  have hdata : (generate_secure_key user_id image_id).data =
      "images/".data ++ ((sha256hex (utf8Bytes user_id)).take 8 ++
        ("/".data ++ ((sanitizeId user_id).data ++
          ("/".data ++ ((sanitizeId image_id).data ++ ".jpg".data))))) := by
    show ("images/" ++ String.mk ((sha256hex (utf8Bytes user_id)).take 8) ++ "/" ++
      sanitizeId user_id ++ "/" ++ sanitizeId image_id ++ ".jpg").data = _
    simp [String.data_append, List.append_assoc]
  refine ⟨rfl, ?_, hhexmem, ?_, ?_⟩
  · rw [String.length_mk, List.length_take, sha256hex_length]
    simp
  · rw [hdata]
    rw [hasDoubleDot_append_of_no_dot _ _ (by decide)]
    rw [hasDoubleDot_append_of_no_dot _ _
      (fun c hc => hexDigit_ne_dot c (hhexmem c hc))]
    rw [hasDoubleDot_append_of_no_dot _ _ (by decide)]
    rw [hasDoubleDot_append_of_no_dot _ _
      (fun c hc => idChar_ne_dot c (sanitizeId_chars user_id c hc))]
    rw [hasDoubleDot_append_of_no_dot _ _ (by decide)]
    rw [hasDoubleDot_append_of_no_dot _ _
      (fun c hc => idChar_ne_dot c (sanitizeId_chars image_id c hc))]
    decide
  · rw [hdata]
    have himg : "images/".data = 'i' :: "mages/".data := rfl
    rw [himg, List.cons_append, List.head?_cons]
    decide

/-- Witness for C6 at a concrete input: the key derived for
`("user123", "img-001")` has no double dot and does not start with `/`. -/
theorem generate_secure_key_structure_witness :
    hasDoubleDot (generate_secure_key "user123" "img-001").data = false ∧
    (generate_secure_key "user123" "img-001").data.head? ≠ some '/' :=
  ⟨(generate_secure_key_structure "user123" "img-001").2.2.2.1,
   (generate_secure_key_structure "user123" "img-001").2.2.2.2⟩

/-- The claim-side invalidity condition on the request's `owner_id`
value: not a non-empty string, or the result of stripping all characters
outside `[A-Za-z0-9_-]` has length below 3 or above 50. -/
def ownerIdInvalidB (v : Jval) : Bool :=
  match v with
  | .str s =>
    s == "" || decide ((sanitizeId s).length < 3) ||
      decide ((sanitizeId s).length > 50)
  | _ => true

theorem ownerIdInvalid_validate (v : Jval) (h : ownerIdInvalidB v = true) :
    ∃ e, validate_user_id v = .error e := by
  cases v with
  | str s =>
    by_cases hs : s = ""
    · exact ⟨"Invalid user_id format", by simp [validate_user_id, hs]⟩
    · simp only [ownerIdInvalidB, Bool.or_eq_true, beq_iff_eq,
        decide_eq_true_eq] at h
      rcases h with (h | h) | h
      · exact absurd h hs
      · refine ⟨"user_id must be 3-50 characters", ?_⟩
        simp [validate_user_id, hs, sanitizeId_stripStr, h]
      · refine ⟨"user_id must be 3-50 characters", ?_⟩
        simp [validate_user_id, hs, sanitizeId_stripStr, h]
  | null => exact ⟨_, rfl⟩
  | bool b => exact ⟨_, rfl⟩
  | num n => exact ⟨_, rfl⟩
  | list xs => exact ⟨_, rfl⟩
  | dict f => exact ⟨_, rfl⟩

/-- C1: whenever the request's `owner_id` is not a non-empty string or
its charset-sanitized form is shorter than 3 or longer than 50, the
pipeline answers 400 with the generic validation body and its storage
trace contains no `put_object` and no `put_item` — for a request body
given directly as an object, and likewise for one arriving as a JSON
string within the size bound. -/
theorem invalid_owner_rejected_before_storage (env : Env)
    (fields : List (String × Jval))
    (h : ownerIdInvalidB (bodyGet fields "user_id" (.str "")) = true) :
    ((secure_lambda_handler env (some (.dict fields))).fst.statusCode = 400 ∧
     (secure_lambda_handler env (some (.dict fields))).fst.body =
       .dict [("error", .str "Invalid request")] ∧
     ∀ op ∈ (secure_lambda_handler env (some (.dict fields))).snd,
       isPutObject op = false ∧ isPutItem op = false) ∧
    ∀ s : String, s.length ≤ MAX_IMAGE_SIZE * 2 →
      env.jsonParse s = some (.dict fields) →
      ((secure_lambda_handler env (some (.str s))).fst.statusCode = 400 ∧
       (secure_lambda_handler env (some (.str s))).fst.body =
         .dict [("error", .str "Invalid request")] ∧
       ∀ op ∈ (secure_lambda_handler env (some (.str s))).snd,
         isPutObject op = false ∧ isPutItem op = false) := by
  obtain ⟨e, he⟩ := ownerIdInvalid_validate _ h
  constructor
  · refine ⟨?_, ?_, ?_⟩
    · simp [secure_lambda_handler, handleBody, he, error_response]
    · simp [secure_lambda_handler, handleBody, he, error_response]
    · intro op hop
      simp only [secure_lambda_handler, handleBody, he] at hop
      simp at hop
      rcases hop with h1 | h1 <;> subst h1 <;> exact ⟨rfl, rfl⟩
  · intro s hlen hparse
    have hsz : ¬ s.length > MAX_IMAGE_SIZE * 2 := by omega
    refine ⟨?_, ?_, ?_⟩
    · simp [secure_lambda_handler, handleBody, he, error_response, hsz, hparse]
    · simp [secure_lambda_handler, handleBody, he, error_response, hsz, hparse]
    · intro op hop
      simp only [secure_lambda_handler, handleBody, hsz, hparse] at hop
      simp [he] at hop
      rcases hop with h1 | h1 <;> subst h1 <;> exact ⟨rfl, rfl⟩

/-- Witness for C1 at concrete inputs: `owner_id = "ab"` (sanitized
length 2) is rejected with a 400, the generic body, and a trace free of
blob and metadata writes. -/
theorem invalid_owner_rejected_before_storage_witness :
    ownerIdInvalidB (bodyGet [("user_id", Jval.str "ab")] "user_id" (.str "")) =
      true ∧
    (secure_lambda_handler envOk
      (some (.dict [("user_id", Jval.str "ab")]))).fst.statusCode = 400 ∧
    ∀ op ∈ (secure_lambda_handler envOk
      (some (.dict [("user_id", Jval.str "ab")]))).snd,
      isPutObject op = false ∧ isPutItem op = false :=
  ⟨by decide,
   (invalid_owner_rejected_before_storage envOk
     [("user_id", Jval.str "ab")] (by decide)).1.1,
   (invalid_owner_rejected_before_storage envOk
     [("user_id", Jval.str "ab")] (by decide)).1.2.2⟩

theorem handleBody_status (env : Env) (b : Jval) (ops : List StorageOp) :
    (handleBody env b ops).fst.statusCode = 201 ∨
    ((handleBody env b ops).fst.statusCode = 400 ∧
     (handleBody env b ops).fst.body = .dict [("error", .str "Invalid request")]) ∨
    ((handleBody env b ops).fst.statusCode = 500 ∧
     (handleBody env b ops).fst.body =
       .dict [("error", .str "An error occurred processing your request")]) := by
  cases b with
  | dict fields =>
    cases h1 : validate_user_id (bodyGet fields "user_id" (.str "")) with
    | error e => right; left; simp [handleBody, h1, error_response]
    | ok user_id =>
    cases h2 : validate_image_data (bodyGet fields "image_data" (.str "")) with
    | error e => right; left; simp [handleBody, h1, h2, error_response]
    | ok image_data =>
    cases h3 : validate_text_field (bodyGet fields "title" (.str "")) "title"
        MAX_TITLE_LENGTH with
    | error e => right; left; simp [handleBody, h1, h2, h3, error_response]
    | ok title =>
    cases h4 : validate_text_field (bodyGet fields "description" (.str ""))
        "description" MAX_DESCRIPTION_LENGTH with
    | error e => right; left; simp [handleBody, h1, h2, h3, h4, error_response]
    | ok description =>
    cases h5 : validate_tags (bodyGet fields "tags" (.list [])) with
    | error e => right; left; simp [handleBody, h1, h2, h3, h4, h5, error_response]
    | ok tags =>
    cases h6 : process_image env.decodeImage env.encodeJPEG image_data with
    | error e => right; left; simp [handleBody, h1, h2, h3, h4, h5, h6, error_response]
    | ok t =>
      obtain ⟨pb, w, ht, fmt⟩ := t
      by_cases hb : env.blobOk = true
      · by_cases hm : env.metaOk = true
        · left; simp [handleBody, h1, h2, h3, h4, h5, h6, hb, hm, success_response]
        · right; right
          simp [handleBody, h1, h2, h3, h4, h5, h6, hb, hm, error_response]
      · right; right
        simp [handleBody, h1, h2, h3, h4, h5, h6, hb, error_response]
  | null => right; left; simp [handleBody, error_response]
  | bool x => right; left; simp [handleBody, error_response]
  | num n => right; left; simp [handleBody, error_response]
  | str s => right; left; simp [handleBody, error_response]
  | list xs => right; left; simp [handleBody, error_response]

theorem handler_status (env : Env) (eventBody : Option Jval) :
    (secure_lambda_handler env eventBody).fst.statusCode = 201 ∨
    ((secure_lambda_handler env eventBody).fst.statusCode = 400 ∧
     (secure_lambda_handler env eventBody).fst.body =
       .dict [("error", .str "Invalid request")]) ∨
    ((secure_lambda_handler env eventBody).fst.statusCode = 500 ∧
     (secure_lambda_handler env eventBody).fst.body =
       .dict [("error", .str "An error occurred processing your request")]) := by
  cases eventBody with
  | none => simpa [secure_lambda_handler] using handleBody_status env (.dict []) _
  | some v =>
    cases v with
    | str s =>
      by_cases hsz : s.length > MAX_IMAGE_SIZE * 2
      · right; left; simp [secure_lambda_handler, hsz, error_response]
      · cases hp : env.jsonParse s with
        | none => right; left; simp [secure_lambda_handler, hsz, hp, error_response]
        | some b =>
          simpa [secure_lambda_handler, hsz, hp] using handleBody_status env b _
    | null => simpa [secure_lambda_handler] using handleBody_status env .null _
    | bool x => simpa [secure_lambda_handler] using handleBody_status env (.bool x) _
    | num n => simpa [secure_lambda_handler] using handleBody_status env (.num n) _
    | list xs =>
      simpa [secure_lambda_handler] using handleBody_status env (.list xs) _
    | dict fields =>
      simpa [secure_lambda_handler] using handleBody_status env (.dict fields) _

/-- C2 counterexample: a request whose string body exceeds the
`MAX_IMAGE_SIZE * 2` oversize bound — the code path that raises
`SecurityError("Request too large")` — is answered with status 400 and
the generic body `"Invalid request"`, not with 413 / `"Request too
large"` as the claim states. -/
theorem oversize_gets_400_not_413 :
    (String.mk (List.replicate (MAX_IMAGE_SIZE * 2 + 1) 'x')).length >
      MAX_IMAGE_SIZE * 2 ∧
    (secure_lambda_handler envOk
      (some (.str (String.mk (List.replicate (MAX_IMAGE_SIZE * 2 + 1) 'x'))))).fst.statusCode
      = 400 ∧
    ¬ (secure_lambda_handler envOk
      (some (.str (String.mk (List.replicate (MAX_IMAGE_SIZE * 2 + 1) 'x'))))).fst.statusCode
      = 413 ∧
    (secure_lambda_handler envOk
      (some (.str (String.mk (List.replicate (MAX_IMAGE_SIZE * 2 + 1) 'x'))))).fst.body
      = .dict [("error", .str "Invalid request")] := by
  have hlen : (String.mk (List.replicate (MAX_IMAGE_SIZE * 2 + 1) 'x')).length =
      MAX_IMAGE_SIZE * 2 + 1 := by
    rw [String.length_mk, List.length_replicate]
  have hgt : (String.mk (List.replicate (MAX_IMAGE_SIZE * 2 + 1) 'x')).length >
      MAX_IMAGE_SIZE * 2 := by omega
  refine ⟨hgt, ?_, ?_, ?_⟩ <;>
    simp [secure_lambda_handler, hgt, error_response]

/-- C2 amended: for every failing upload request the response status is
400 with the generic body `"Invalid request"` (all validation,
transcoding, malformed-body and oversize failures) or 500 with the
generic body `"An error occurred processing your request"`
(storage/internal failures); the 413 / `"Request too large"` response is
never produced, and no concrete error detail ever reaches the body. -/
theorem failing_responses_are_generic (env : Env) (eventBody : Option Jval)
    (h : ¬ (secure_lambda_handler env eventBody).fst.statusCode = 201) :
    ((secure_lambda_handler env eventBody).fst.statusCode = 400 ∧
     (secure_lambda_handler env eventBody).fst.body =
       .dict [("error", .str "Invalid request")]) ∨
    ((secure_lambda_handler env eventBody).fst.statusCode = 500 ∧
     (secure_lambda_handler env eventBody).fst.body =
       .dict [("error", .str "An error occurred processing your request")]) := by
  rcases handler_status env eventBody with h201 | h4 | h5
  · exact absurd h201 h
  · exact Or.inl h4
  · exact Or.inr h5

/-- Witness for the amended C2 at a concrete input: an empty-object
request fails (status 400, not 201) and its body is one of the two
generic messages. -/
theorem failing_responses_are_generic_witness :
    ¬ (secure_lambda_handler envOk (some (.dict []))).fst.statusCode = 201 ∧
    (((secure_lambda_handler envOk (some (.dict []))).fst.statusCode = 400 ∧
      (secure_lambda_handler envOk (some (.dict []))).fst.body =
        .dict [("error", .str "Invalid request")]) ∨
     ((secure_lambda_handler envOk (some (.dict []))).fst.statusCode = 500 ∧
      (secure_lambda_handler envOk (some (.dict []))).fst.body =
        .dict [("error", .str "An error occurred processing your request")])) :=
  ⟨by decide, failing_responses_are_generic envOk (some (.dict [])) (by decide)⟩

/-- An otherwise-valid upload request whose tag list has the given
entries. -/
def uploadFieldsWithTags (ts : List Jval) : List (String × Jval) :=
  [("user_id", .str "user123"), ("image_data", .str "QUJD"),
   ("tags", .list ts)]

/-- Ten valid tags plus an eleventh invalid-charset tag. -/
def elevenTags : List Jval :=
  [.str "tag0", .str "tag1", .str "tag2", .str "tag3", .str "tag4",
   .str "tag5", .str "tag6", .str "tag7", .str "tag8", .str "tag9",
   .str "!!!"]

/-- C3 counterexample: an upload carrying ten valid tags plus an
eleventh invalid-charset tag does not succeed: the raw 11-entry list
trips the tag-count check, the response is 400, and no metadata record
is stored at all. -/
theorem eleven_tags_rejected_not_accepted :
    (secure_lambda_handler envOk
      (some (.dict (uploadFieldsWithTags elevenTags)))).fst.statusCode = 400 ∧
    ∀ op ∈ (secure_lambda_handler envOk
      (some (.dict (uploadFieldsWithTags elevenTags)))).snd,
      isPutItem op = false := by
  constructor
  · decide
  · decide

/-- C3 amended: an upload whose tag list has at most ten entries still
succeeds even when some entries have an invalid charset, and the stored
record's tags are exactly the sanitized survivors (entries that sanitize
to empty are silently absent); only a raw list of more than ten entries
is rejected. -/
theorem small_tag_list_with_invalid_entry_succeeds (env : Env)
    (ts : List Jval) (img : ImgInfo)
    (hb : env.blobOk = true) (hm : env.metaOk = true)
    (hlen : ts.length ≤ MAX_TAGS_COUNT)
    (hdec : env.decodeImage [65, 66, 67] = .ok img)
    (hfmt : allowedFormat img.format = true)
    (hw : img.width ≤ 4096) (hh : img.height ≤ 4096) :
    (secure_lambda_handler env
      (some (.dict (uploadFieldsWithTags ts)))).fst.statusCode = 201 ∧
    ∃ item : ItemRecord,
      StorageOp.putItem item true ∈
        (secure_lambda_handler env (some (.dict (uploadFieldsWithTags ts)))).snd ∧
      item.tags = tagLoop ts ∧
      ∀ t ∈ item.tags, t.data.all isIdChar = true := by
  have g1 : bodyGet (uploadFieldsWithTags ts) "user_id" (.str "") =
      .str "user123" := rfl
  have g2 : bodyGet (uploadFieldsWithTags ts) "image_data" (.str "") =
      .str "QUJD" := rfl
  have g3 : bodyGet (uploadFieldsWithTags ts) "title" (.str "") = .str "" := rfl
  have g4 : bodyGet (uploadFieldsWithTags ts) "description" (.str "") =
      .str "" := rfl
  have g5 : bodyGet (uploadFieldsWithTags ts) "tags" (.list []) = .list ts := rfl
  have h1 : validate_user_id (.str "user123") = .ok "user123" := rfl
  have h2 : validate_image_data (.str "QUJD") = .ok [65, 66, 67] := rfl
  have h3 : validate_text_field (.str "") "title" MAX_TITLE_LENGTH =
      .ok "" := rfl
  have h4 : validate_text_field (.str "") "description"
      MAX_DESCRIPTION_LENGTH = .ok "" := rfl
  have h5 : validate_tags (.list ts) = .ok (tagLoop ts) := by
    have hnot : ¬ ts.length > MAX_TAGS_COUNT := by omega
    simp [validate_tags, hnot]
  have hw' : ¬ img.width > 4096 := by omega
  have hh' : ¬ img.height > 4096 := by omega
  have h6 : process_image env.decodeImage env.encodeJPEG [65, 66, 67] =
      .ok (env.encodeJPEG (convertMode img), img.width, img.height,
        (img.format).getD "JPEG") := by
    simp [process_image, hdec, hfmt, hw', hh']
  constructor
  · simp [secure_lambda_handler, handleBody, g1, g2, g3, g4, g5,
      h1, h2, h3, h4, h5, h6, hb, hm, success_response]
  · refine ⟨{ image_id := env.imageId, user_id := "user123", title := "",
              description := "", tags := tagLoop ts,
              s3_key := generate_secure_key "user123" env.imageId,
              width := img.width, height := img.height,
              format := (img.format).getD "JPEG",
              file_size := (env.encodeJPEG (convertMode img)).length,
              created_at := env.nowCreated,
              updated_at := env.nowUpdated },
      ?_, rfl, fun t ht => (mem_tagLoop_shape t ts ht).1⟩
    simp [secure_lambda_handler, handleBody, g1, g2, g3, g4, g5,
      h1, h2, h3, h4, h5, h6, hb, hm]

/-- Witness for the amended C3 at a concrete input: the tag list
`["test", "sample", "!!!"]` (three entries, one sanitizing to empty)
still uploads with status 201 and the stored record's tags are exactly
`["test", "sample"]` — the invalid entry is silently absent. -/
theorem small_tag_list_with_invalid_entry_succeeds_witness :
    ([Jval.str "test", Jval.str "sample", Jval.str "!!!"].length ≤
      MAX_TAGS_COUNT) ∧
    tagLoop [Jval.str "test", Jval.str "sample", Jval.str "!!!"] =
      ["test", "sample"] ∧
    (secure_lambda_handler envOk (some (.dict (uploadFieldsWithTags
      [Jval.str "test", Jval.str "sample", Jval.str "!!!"])))).fst.statusCode
      = 201 ∧
    ∃ item : ItemRecord,
      StorageOp.putItem item true ∈
        (secure_lambda_handler envOk (some (.dict (uploadFieldsWithTags
          [Jval.str "test", Jval.str "sample", Jval.str "!!!"])))).snd ∧
      item.tags = ["test", "sample"] := by
  have h := small_tag_list_with_invalid_entry_succeeds envOk
    [Jval.str "test", Jval.str "sample", Jval.str "!!!"]
    { format := some "JPEG", width := 100, height := 100, mode := "RGB" }
    rfl rfl (by decide) rfl (by decide) (by decide) (by decide)
  refine ⟨by decide, rfl, h.1, ?_⟩
  obtain ⟨item, hmem, htags, _⟩ := h.2
  exact ⟨item, hmem, by rw [htags]; rfl⟩

theorem handleBody_trace_cases (env : Env) (b : Jval) (ops : List StorageOp) :
    (handleBody env b ops).snd = ops ∨
    (∃ k bs m, (handleBody env b ops).snd =
        ops ++ [.putObject k bs true, .putItem m true] ∧
      (handleBody env b ops).fst.statusCode = 201) ∨
    (∃ k bs m, (handleBody env b ops).snd =
        ops ++ [.putObject k bs true, .putItem m false] ∧
      (handleBody env b ops).fst.statusCode = 500) ∨
    (∃ k bs, (handleBody env b ops).snd = ops ++ [.putObject k bs false] ∧
      (handleBody env b ops).fst.statusCode = 500) := by
  cases b with
  | dict fields =>
    cases h1 : validate_user_id (bodyGet fields "user_id" (.str "")) with
    | error e => left; simp [handleBody, h1]
    | ok user_id =>
    cases h2 : validate_image_data (bodyGet fields "image_data" (.str "")) with
    | error e => left; simp [handleBody, h1, h2]
    | ok image_data =>
    cases h3 : validate_text_field (bodyGet fields "title" (.str "")) "title"
        MAX_TITLE_LENGTH with
    | error e => left; simp [handleBody, h1, h2, h3]
    | ok title =>
    cases h4 : validate_text_field (bodyGet fields "description" (.str ""))
        "description" MAX_DESCRIPTION_LENGTH with
    | error e => left; simp [handleBody, h1, h2, h3, h4]
    | ok description =>
    cases h5 : validate_tags (bodyGet fields "tags" (.list [])) with
    | error e => left; simp [handleBody, h1, h2, h3, h4, h5]
    | ok tags =>
    cases h6 : process_image env.decodeImage env.encodeJPEG image_data with
    | error e => left; simp [handleBody, h1, h2, h3, h4, h5, h6]
    | ok t =>
      obtain ⟨pb, w, ht, fmt⟩ := t
      by_cases hb : env.blobOk = true
      · by_cases hm : env.metaOk = true
        · right; left
          refine ⟨generate_secure_key user_id env.imageId, pb,
            { image_id := env.imageId, user_id := user_id, title := title,
              description := description, tags := tags,
              s3_key := generate_secure_key user_id env.imageId,
              width := w, height := ht, format := fmt,
              file_size := pb.length, created_at := env.nowCreated,
              updated_at := env.nowUpdated }, ?_, ?_⟩ <;>
            simp [handleBody, h1, h2, h3, h4, h5, h6, hb, hm, success_response]
        · right; right; left
          refine ⟨generate_secure_key user_id env.imageId, pb,
            { image_id := env.imageId, user_id := user_id, title := title,
              description := description, tags := tags,
              s3_key := generate_secure_key user_id env.imageId,
              width := w, height := ht, format := fmt,
              file_size := pb.length, created_at := env.nowCreated,
              updated_at := env.nowUpdated }, ?_, ?_⟩ <;>
            simp [handleBody, h1, h2, h3, h4, h5, h6, hb, hm, error_response]
      · right; right; right
        refine ⟨generate_secure_key user_id env.imageId, pb, ?_, ?_⟩ <;>
          simp [handleBody, h1, h2, h3, h4, h5, h6, hb, error_response]
  | null => left; simp [handleBody]
  | bool x => left; simp [handleBody]
  | num n => left; simp [handleBody]
  | str s => left; simp [handleBody]
  | list xs => left; simp [handleBody]

theorem handler_trace_cases (env : Env) (eventBody : Option Jval) :
    (secure_lambda_handler env eventBody).snd = [] ∨
    (secure_lambda_handler env eventBody).snd =
      [.createTable, .createBucket] ∨
    (∃ k bs m, (secure_lambda_handler env eventBody).snd =
        [.createTable, .createBucket, .putObject k bs true, .putItem m true] ∧
      (secure_lambda_handler env eventBody).fst.statusCode = 201) ∨
    (∃ k bs m, (secure_lambda_handler env eventBody).snd =
        [.createTable, .createBucket, .putObject k bs true, .putItem m false] ∧
      (secure_lambda_handler env eventBody).fst.statusCode = 500) ∨
    (∃ k bs, (secure_lambda_handler env eventBody).snd =
        [.createTable, .createBucket, .putObject k bs false] ∧
      (secure_lambda_handler env eventBody).fst.statusCode = 500) := by
  cases eventBody with
  | none =>
    right
    simpa [secure_lambda_handler] using
      handleBody_trace_cases env (.dict []) [.createTable, .createBucket]
  | some v =>
    cases v with
    | str s =>
      by_cases hsz : s.length > MAX_IMAGE_SIZE * 2
      · left; simp [secure_lambda_handler, hsz]
      · cases hp : env.jsonParse s with
        | none => right; left; simp [secure_lambda_handler, hsz, hp]
        | some b =>
          right
          simpa [secure_lambda_handler, hsz, hp] using
            handleBody_trace_cases env b [.createTable, .createBucket]
    | null =>
      right
      simpa [secure_lambda_handler] using
        handleBody_trace_cases env .null [.createTable, .createBucket]
    | bool x =>
      right
      simpa [secure_lambda_handler] using
        handleBody_trace_cases env (.bool x) [.createTable, .createBucket]
    | num n =>
      right
      simpa [secure_lambda_handler] using
        handleBody_trace_cases env (.num n) [.createTable, .createBucket]
    | list xs =>
      right
      simpa [secure_lambda_handler] using
        handleBody_trace_cases env (.list xs) [.createTable, .createBucket]
    | dict fields =>
      right
      simpa [secure_lambda_handler] using
        handleBody_trace_cases env (.dict fields) [.createTable, .createBucket]

/-- C7: persistence is blob-first. If a blob write was attempted and
failed, the response is the 500 storage error and no metadata write
appears anywhere in the trace; if a metadata write was attempted and
failed, the response is the 500 storage error, a successful blob write
precedes it in the trace, and no blob delete (no rollback) ever appears
in the trace. -/
theorem blob_first_persistence (env : Env) (eventBody : Option Jval) :
    ((∃ k bs, StorageOp.putObject k bs false ∈
        (secure_lambda_handler env eventBody).snd) →
      (secure_lambda_handler env eventBody).fst.statusCode = 500 ∧
      ∀ item ok, StorageOp.putItem item ok ∉
        (secure_lambda_handler env eventBody).snd) ∧
    ((∃ item, StorageOp.putItem item false ∈
        (secure_lambda_handler env eventBody).snd) →
      (secure_lambda_handler env eventBody).fst.statusCode = 500 ∧
      (∃ k bs, StorageOp.putObject k bs true ∈
        (secure_lambda_handler env eventBody).snd) ∧
      ∀ k ok, StorageOp.deleteObject k ok ∉
        (secure_lambda_handler env eventBody).snd) := by
  rcases handler_trace_cases env eventBody with
    h | h | ⟨k, bs, m, h, hst⟩ | ⟨k, bs, m, h, hst⟩ | ⟨k, bs, h, hst⟩
  · constructor
    · rintro ⟨k, bs, hmem⟩
      rw [h] at hmem
      cases hmem
    · rintro ⟨item, hmem⟩
      rw [h] at hmem
      cases hmem
  · constructor
    · rintro ⟨k, bs, hmem⟩
      rw [h] at hmem
      simp at hmem
    · rintro ⟨item, hmem⟩
      rw [h] at hmem
      simp at hmem
  · constructor
    · rintro ⟨k2, bs2, hmem⟩
      rw [h] at hmem
      simp at hmem
    · rintro ⟨item, hmem⟩
      rw [h] at hmem
      simp at hmem
  · constructor
    · rintro ⟨k2, bs2, hmem⟩
      rw [h] at hmem
      simp at hmem
    · rintro ⟨item, hmem⟩
      refine ⟨hst, ⟨k, bs, by rw [h]; simp⟩, ?_⟩
      intro k2 ok hmem2
      rw [h] at hmem2
      simp at hmem2
  · constructor
    · rintro ⟨k2, bs2, hmem⟩
      refine ⟨hst, ?_⟩
      intro item ok hmem2
      rw [h] at hmem2
      simp at hmem2
    · rintro ⟨item, hmem⟩
      rw [h] at hmem
      simp at hmem

/-- Environment in which the S3 `put_object` call fails. -/
def envBlobFail : Env := { envOk with blobOk := false }

/-- Environment in which the DynamoDB `put_item` call fails after a
successful blob write. -/
def envMetaFail : Env := { envOk with metaOk := false }

/-- Witness for C7 at concrete inputs: with a failing blob write the
response is 500 and the trace holds no metadata write; with a failing
metadata write the response is 500, the trace holds the successful blob
write, and no blob delete. -/
theorem blob_first_persistence_witness :
    ((∃ k bs, StorageOp.putObject k bs false ∈
        (secure_lambda_handler envBlobFail
          (some (.dict (uploadFieldsWithTags [])))).snd) ∧
     (secure_lambda_handler envBlobFail
        (some (.dict (uploadFieldsWithTags [])))).fst.statusCode = 500 ∧
     ∀ item ok, StorageOp.putItem item ok ∉
        (secure_lambda_handler envBlobFail
          (some (.dict (uploadFieldsWithTags [])))).snd) ∧
    ((∃ item, StorageOp.putItem item false ∈
        (secure_lambda_handler envMetaFail
          (some (.dict (uploadFieldsWithTags [])))).snd) ∧
     (secure_lambda_handler envMetaFail
        (some (.dict (uploadFieldsWithTags [])))).fst.statusCode = 500 ∧
     (∃ k bs, StorageOp.putObject k bs true ∈
        (secure_lambda_handler envMetaFail
          (some (.dict (uploadFieldsWithTags [])))).snd) ∧
     ∀ k ok, StorageOp.deleteObject k ok ∉
        (secure_lambda_handler envMetaFail
          (some (.dict (uploadFieldsWithTags [])))).snd) := by
  have hblob : ∃ k bs, StorageOp.putObject k bs false ∈
      (secure_lambda_handler envBlobFail
        (some (.dict (uploadFieldsWithTags [])))).snd :=
    ⟨generate_secure_key "user123" envOk.imageId, [255], by decide⟩
  have hmeta : ∃ item, StorageOp.putItem item false ∈
      (secure_lambda_handler envMetaFail
        (some (.dict (uploadFieldsWithTags [])))).snd :=
    ⟨{ image_id := envOk.imageId, user_id := "user123", title := "",
       description := "", tags := [],
       s3_key := generate_secure_key "user123" envOk.imageId,
       width := 100, height := 100, format := "JPEG", file_size := 1,
       created_at := envOk.nowCreated, updated_at := envOk.nowUpdated },
     by decide⟩
  have h1 := (blob_first_persistence envBlobFail
    (some (.dict (uploadFieldsWithTags [])))).1 hblob
  have h2 := (blob_first_persistence envMetaFail
    (some (.dict (uploadFieldsWithTags [])))).2 hmeta
  exact ⟨⟨hblob, h1⟩, ⟨hmeta, h2⟩⟩

theorem handleBody_response_cases (env : Env) (b : Jval) (ops : List StorageOp) :
    (∃ e c, (c = 400 ∨ c = 500) ∧
      (handleBody env b ops).fst = error_response env e c) ∨
    (∃ d, (handleBody env b ops).fst = success_response env d 201) := by
  cases b with
  | dict fields =>
    cases h1 : validate_user_id (bodyGet fields "user_id" (.str "")) with
    | error e => exact Or.inl ⟨e, 400, Or.inl rfl, by simp [handleBody, h1]⟩
    | ok user_id =>
    cases h2 : validate_image_data (bodyGet fields "image_data" (.str "")) with
    | error e => exact Or.inl ⟨e, 400, Or.inl rfl, by simp [handleBody, h1, h2]⟩
    | ok image_data =>
    cases h3 : validate_text_field (bodyGet fields "title" (.str "")) "title"
        MAX_TITLE_LENGTH with
    | error e => exact Or.inl ⟨e, 400, Or.inl rfl, by simp [handleBody, h1, h2, h3]⟩
    | ok title =>
    cases h4 : validate_text_field (bodyGet fields "description" (.str ""))
        "description" MAX_DESCRIPTION_LENGTH with
    | error e =>
      exact Or.inl ⟨e, 400, Or.inl rfl, by simp [handleBody, h1, h2, h3, h4]⟩
    | ok description =>
    cases h5 : validate_tags (bodyGet fields "tags" (.list [])) with
    | error e =>
      exact Or.inl ⟨e, 400, Or.inl rfl, by simp [handleBody, h1, h2, h3, h4, h5]⟩
    | ok tags =>
    cases h6 : process_image env.decodeImage env.encodeJPEG image_data with
    | error e =>
      exact Or.inl ⟨e.message, 400, Or.inl rfl,
        by simp [handleBody, h1, h2, h3, h4, h5, h6]⟩
    | ok t =>
      obtain ⟨pb, w, ht, fmt⟩ := t
      by_cases hb : env.blobOk = true
      · by_cases hm : env.metaOk = true
        · refine Or.inr ⟨Jval.dict
            [("message", .str "Image uploaded successfully"),
             ("image_id", .str env.imageId),
             ("metadata", .dict
               [("image_id", .str env.imageId),
                ("user_id", .str user_id),
                ("title", .str title),
                ("description", .str description),
                ("tags", .list (tags.map .str)),
                ("width", .num w),
                ("height", .num ht),
                ("file_size", .num pb.length),
                ("created_at", .str env.nowCreated)])], ?_⟩
          simp [handleBody, h1, h2, h3, h4, h5, h6, hb, hm]
        · refine Or.inl ⟨"Internal server error", 500, Or.inr rfl, ?_⟩
          simp [handleBody, h1, h2, h3, h4, h5, h6, hb, hm]
      · refine Or.inl ⟨"Internal server error", 500, Or.inr rfl, ?_⟩
        simp [handleBody, h1, h2, h3, h4, h5, h6, hb]
  | null => exact Or.inl ⟨"Invalid request format", 400, Or.inl rfl, by simp [handleBody]⟩
  | bool x => exact Or.inl ⟨"Invalid request format", 400, Or.inl rfl, by simp [handleBody]⟩
  | num n => exact Or.inl ⟨"Invalid request format", 400, Or.inl rfl, by simp [handleBody]⟩
  | str s => exact Or.inl ⟨"Invalid request format", 400, Or.inl rfl, by simp [handleBody]⟩
  | list xs => exact Or.inl ⟨"Invalid request format", 400, Or.inl rfl, by simp [handleBody]⟩

theorem handler_response_cases (env : Env) (eventBody : Option Jval) :
    (∃ e c, (c = 400 ∨ c = 500) ∧
      (secure_lambda_handler env eventBody).fst = error_response env e c) ∨
    (∃ d, (secure_lambda_handler env eventBody).fst =
      success_response env d 201) := by
  cases eventBody with
  | none =>
    simpa [secure_lambda_handler] using
      handleBody_response_cases env (.dict []) [.createTable, .createBucket]
  | some v =>
    cases v with
    | str s =>
      by_cases hsz : s.length > MAX_IMAGE_SIZE * 2
      · exact Or.inl ⟨"Request too large", 400, Or.inl rfl,
          by simp [secure_lambda_handler, hsz]⟩
      · cases hp : env.jsonParse s with
        | none =>
          exact Or.inl ⟨"Invalid JSON format", 400, Or.inl rfl,
            by simp [secure_lambda_handler, hsz, hp]⟩
        | some b =>
          simpa [secure_lambda_handler, hsz, hp] using
            handleBody_response_cases env b [.createTable, .createBucket]
    | null =>
      simpa [secure_lambda_handler] using
        handleBody_response_cases env .null [.createTable, .createBucket]
    | bool x =>
      simpa [secure_lambda_handler] using
        handleBody_response_cases env (.bool x) [.createTable, .createBucket]
    | num n =>
      simpa [secure_lambda_handler] using
        handleBody_response_cases env (.num n) [.createTable, .createBucket]
    | list xs =>
      simpa [secure_lambda_handler] using
        handleBody_response_cases env (.list xs) [.createTable, .createBucket]
    | dict fields =>
      simpa [secure_lambda_handler] using
        handleBody_response_cases env (.dict fields) [.createTable, .createBucket]

/-- C8 counterexample: the 400 response to an empty-object request
carries no `Strict-Transport-Security` header at all — the error
formatter's header set has only four entries — so not every response of
the pipeline carries the full required header set. -/
theorem error_response_lacks_sts :
    (secure_lambda_handler envOk (some (.dict []))).fst.statusCode = 400 ∧
    ((secure_lambda_handler envOk (some (.dict []))).fst.headers.all
      (fun p => p.fst != "Strict-Transport-Security")) = true := by
  constructor
  · decide
  · decide

/-- C8 amended: every response of the pipeline carries
`Content-Type: application/json`, the configured CORS origin (never `*`
when the configured origin is not `*`; the default is
`https://yourdomain.com`), `X-Content-Type-Options: nosniff` and
`X-Frame-Options: DENY`; the success (201) responses additionally carry
`Strict-Transport-Security`, but the error responses omit it. -/
theorem response_headers_policy (env : Env) (eventBody : Option Jval) :
    (("Content-Type", "application/json") ∈
      (secure_lambda_handler env eventBody).fst.headers) ∧
    (("Access-Control-Allow-Origin", env.origin) ∈
      (secure_lambda_handler env eventBody).fst.headers) ∧
    (("X-Content-Type-Options", "nosniff") ∈
      (secure_lambda_handler env eventBody).fst.headers) ∧
    (("X-Frame-Options", "DENY") ∈
      (secure_lambda_handler env eventBody).fst.headers) ∧
    ((secure_lambda_handler env eventBody).fst.statusCode = 201 →
      ("Strict-Transport-Security", "max-age=31536000; includeSubDomains") ∈
        (secure_lambda_handler env eventBody).fst.headers) ∧
    (env.origin ≠ "*" →
      ∀ p ∈ (secure_lambda_handler env eventBody).fst.headers,
        p.1 = "Access-Control-Allow-Origin" → p.2 ≠ "*") := by
  rcases handler_response_cases env eventBody with ⟨e, c, hc, hresp⟩ | ⟨d, hresp⟩
  · refine ⟨?_, ?_, ?_, ?_, ?_, ?_⟩
    · rw [hresp]; simp [error_response]
    · rw [hresp]; simp [error_response]
    · rw [hresp]; simp [error_response]
    · rw [hresp]; simp [error_response]
    · intro h201
      rw [hresp] at h201
      simp only [error_response] at h201
      rcases hc with hc | hc <;> omega
    · intro hstar p hp hkey
      rw [hresp] at hp
      simp only [error_response, List.mem_cons, List.mem_singleton,
        List.not_mem_nil, or_false] at hp
      rcases hp with hp | hp | hp | hp <;> subst hp <;> simp_all
  · refine ⟨?_, ?_, ?_, ?_, ?_, ?_⟩
    · rw [hresp]; simp [success_response]
    · rw [hresp]; simp [success_response]
    · rw [hresp]; simp [success_response]
    · rw [hresp]; simp [success_response]
    · intro _
      rw [hresp]; simp [success_response]
    · intro hstar p hp hkey
      rw [hresp] at hp
      simp only [success_response, List.mem_cons, List.mem_singleton,
        List.not_mem_nil, or_false] at hp
      rcases hp with hp | hp | hp | hp | hp | hp | hp | hp <;>
        subst hp <;> simp_all

/-- Witness for the amended C8 at a concrete input: the successful
upload's response carries all five headers with the default restrictive
origin. -/
theorem response_headers_policy_witness :
    envOk.origin ≠ "*" ∧
    (secure_lambda_handler envOk
      (some (.dict (uploadFieldsWithTags [])))).fst.statusCode = 201 ∧
    ("Strict-Transport-Security", "max-age=31536000; includeSubDomains") ∈
      (secure_lambda_handler envOk
        (some (.dict (uploadFieldsWithTags [])))).fst.headers ∧
    ("Content-Type", "application/json") ∈
      (secure_lambda_handler envOk
        (some (.dict (uploadFieldsWithTags [])))).fst.headers := by
  have h201 : (secure_lambda_handler envOk
      (some (.dict (uploadFieldsWithTags [])))).fst.statusCode = 201 := by decide
  have h := response_headers_policy envOk (some (.dict (uploadFieldsWithTags [])))
  exact ⟨by decide, h201, h.2.2.2.2.1 h201, h.1⟩

/-- C9: for a delete request naming an image whose metadata row exists
but whose blob delete fails (absent or undeletable blob), the handler
still deletes the metadata row and returns 200 with the success body;
the failed blob delete is visible in the trace but swallowed. -/
theorem delete_lenient_to_missing_blob (env : DeleteEnv) (iid : String)
    (item : DbItem) (hiid : iid ≠ "") (hget : env.getItem iid = some item)
    (hs3 : env.s3DeleteOk = false) (hdb : env.dbDeleteOk = true) :
    (delete_lambda_handler env (some iid)).fst.statusCode = 200 ∧
    StorageOp.deleteItem iid true ∈ (delete_lambda_handler env (some iid)).snd ∧
    StorageOp.deleteObject item.s3_key false ∈
      (delete_lambda_handler env (some iid)).snd ∧
    (delete_lambda_handler env (some iid)).fst.body =
      .dict [("message", .str "Image deleted successfully"),
             ("image_id", .str iid)] := by
  refine ⟨?_, ?_, ?_, ?_⟩ <;>
    simp [delete_lambda_handler, hiid, hget, hs3, hdb, deleteResponse]

/-- Witness for C9 at concrete inputs: deleting `"img1"` with a failing
blob delete still removes the row and answers 200. -/
theorem delete_lenient_to_missing_blob_witness :
    ("img1" : String) ≠ "" ∧
    (delete_lambda_handler
      { getItem := fun _ => some { s3_key := "images/k/u/i.jpg" },
        s3DeleteOk := false, dbDeleteOk := true }
      (some "img1")).fst.statusCode = 200 ∧
    StorageOp.deleteItem "img1" true ∈
      (delete_lambda_handler
        { getItem := fun _ => some { s3_key := "images/k/u/i.jpg" },
          s3DeleteOk := false, dbDeleteOk := true }
        (some "img1")).snd := by
  have h := delete_lenient_to_missing_blob
    { getItem := fun _ => some { s3_key := "images/k/u/i.jpg" },
      s3DeleteOk := false, dbDeleteOk := true }
    "img1" { s3_key := "images/k/u/i.jpg" } (by decide) rfl rfl rfl
  exact ⟨by decide, h.1, h.2.1⟩
